import Mathlib

/-!
Verification development for the `py_netgear_plus` device-client library
(`custom_components/netgear_plus/py_netgear_plus/`).

The Python sources are shallowly embedded: pure computations become Lean
functions, Python `int` becomes `ℤ`/`ℕ`, Python `float` arithmetic is modelled
by exact rational arithmetic (`ℚ`), and code paths that raise exceptions are
modelled by explicit result types (`Except`, dedicated inductives).
-/

namespace NetgearPlus

/-! ### Rate engine

Embedding of `NetgearSwitchConnector._update_current_data`
(`py_netgear_plus/__init__.py`, lines 530-659).  The routine runs one loop
iteration per port; the per-port body only reads the entries of the previous
and current counter arrays at that port, the port's link state, and the global
`sample_time`, so it is embedded as a function of those values. -/

/-- Python `int(x)` applied to a rational value: truncation toward zero. -/
def pyInt (q : ℚ) : ℤ := if q < 0 then ⌈q⌉ else ⌊q⌋

/-- `sample_factor = 1 if not sample_time else 1 / sample_time` (line 534). -/
def sample_factor (sample_time : ℚ) : ℚ :=
  if sample_time = 0 then 1 else 1 / sample_time

/-- Per-port entries of `self._previous_data` (one previous sample is retained;
cumulative counters and the derived io speed, all Python ints). -/
structure PortPrev where
  traffic_rx : ℤ
  traffic_tx : ℤ
  crc_errors : ℤ
  sum_rx : ℤ
  sum_tx : ℤ
  speed_io : ℤ
deriving DecidableEq, Repr

/-- Per-port entries of the freshly parsed statistics arrays in `current_data`
(`parse_port_statistics` returns `traffic_rx`, `traffic_tx`, `crc_errors`,
`sum_rx`, `sum_tx`; the parsed `speed_io` entry is always 0 and unused here). -/
structure PortCur where
  traffic_rx : ℤ
  traffic_tx : ℤ
  crc_errors : ℤ
  sum_rx : ℤ
  sum_tx : ℤ
deriving DecidableEq, Repr

/-- The `port_{n}_*` values produced for one port.  Traffic deltas and speeds
can be clamped against the float `1e9` ceiling, hence `ℚ`; the sums and the io
speed are never clamped and stay integers. -/
structure PortRates where
  traffic_rx : ℚ
  traffic_tx : ℚ
  crc_errors : ℚ
  sum_rx : ℤ
  sum_tx : ℤ
  speed_rx : ℚ
  speed_tx : ℚ
  speed_io : ℤ
deriving DecidableEq, Repr

/-- The delta computation of lines 538-561: the current minus the previous
cumulative counter, forced to 0 whenever the previous value is 0. -/
def rawDelta (prev cur : ℤ) : ℤ :=
  if prev = 0 then 0 else cur - prev

/-- One per-port iteration of `_update_current_data` (lines 535-659):
delta and speed computation, low-pass (negative values clamp to 0), fallback to
the previous sample for `sum_rx`/`sum_tx`/`speed_io` on connected ports, and
the two high-pass clamps. -/
def update_current_data (prev : PortPrev) (cur : PortCur) (connected : Bool)
    (sample_time : ℚ) : PortRates :=
  let sf := sample_factor sample_time
  let traffic_rx := rawDelta prev.traffic_rx cur.traffic_rx
  let traffic_tx := rawDelta prev.traffic_tx cur.traffic_tx
  let crc_errors := rawDelta prev.crc_errors cur.crc_errors
  let sum_rx := cur.sum_rx
  let sum_tx := cur.sum_tx
  let speed_rx := pyInt ((traffic_rx : ℚ) * sf)
  let speed_tx := pyInt ((traffic_tx : ℚ) * sf)
  let speed_io := speed_rx + speed_tx
  -- Lowpass-Filter (lines 583-595)
  let traffic_rx := max traffic_rx 0
  let traffic_tx := max traffic_tx 0
  let crc_errors := max crc_errors 0
  let speed_rx := max speed_rx 0
  let speed_tx := max speed_tx 0
  let speed_io := max speed_io 0
  -- "Access old data if value is 0" (lines 597-616); the test is `< 0`
  let sum_rx := if connected then (if sum_rx < 0 then prev.sum_rx else sum_rx) else sum_rx
  let sum_tx := if connected then (if sum_tx < 0 then prev.sum_tx else sum_tx) else sum_tx
  let speed_io :=
    if connected then (if speed_io < 0 then prev.speed_io else speed_io) else speed_io
  -- Highpass-Filter on deltas: `hp_max_traffic = 1e9 / sample_factor` (lines 618-628)
  let hp_max_traffic : ℚ := 1000000000 / sf
  let traffic_rxq : ℚ := min (traffic_rx : ℚ) hp_max_traffic
  let traffic_txq : ℚ := min (traffic_tx : ℚ) hp_max_traffic
  let crc_errorsq : ℚ := min (crc_errors : ℚ) hp_max_traffic
  -- Highpass-Filter on speeds: `hp_max_speed = 1e9` (lines 630-638)
  let speed_rxq : ℚ := min (speed_rx : ℚ) 1000000000
  let speed_txq : ℚ := min (speed_tx : ℚ) 1000000000
  { traffic_rx := traffic_rxq
    traffic_tx := traffic_txq
    crc_errors := crc_errorsq
    sum_rx := sum_rx
    sum_tx := sum_tx
    speed_rx := speed_rxq
    speed_tx := speed_txq
    speed_io := speed_io }

/-- C8: with previous cumulative counters 100 and 100, current counters 150
and 110, and 5 seconds elapsed, the reported rx rate is 10 bytes/s and the
reported tx rate is 2 bytes/s. -/
theorem rate_engine_example :
    (update_current_data
        { traffic_rx := 100, traffic_tx := 100, crc_errors := 0,
          sum_rx := 100, sum_tx := 100, speed_io := 0 }
        { traffic_rx := 150, traffic_tx := 110, crc_errors := 0,
          sum_rx := 150, sum_tx := 110 }
        true 5).speed_rx = 10 ∧
    (update_current_data
        { traffic_rx := 100, traffic_tx := 100, crc_errors := 0,
          sum_rx := 100, sum_tx := 100, speed_io := 0 }
        { traffic_rx := 150, traffic_tx := 110, crc_errors := 0,
          sum_rx := 150, sum_tx := 110 }
        true 5).speed_tx = 2 := by
  constructor <;>
    norm_num [update_current_data, rawDelta, pyInt, sample_factor, min_def, max_def]

theorem pyInt_intCast (d : ℤ) : pyInt (d : ℚ) = d := by
  unfold pyInt
  by_cases h : (d : ℚ) < 0 <;> simp [h]

/-- C3 (counterexample): with a previous cumulative counter of 0 and a current
counter of 50, the reported delta is 0, not `current - previous = 50`: the
code forces the delta to 0 whenever the previous counter is 0. -/
theorem delta_zero_previous_counterexample :
    (update_current_data
        { traffic_rx := 0, traffic_tx := 0, crc_errors := 0,
          sum_rx := 0, sum_tx := 0, speed_io := 0 }
        { traffic_rx := 50, traffic_tx := 0, crc_errors := 0,
          sum_rx := 50, sum_tx := 0 }
        false 1).traffic_rx = 0 ∧
    (update_current_data
        { traffic_rx := 0, traffic_tx := 0, crc_errors := 0,
          sum_rx := 0, sum_tx := 0, speed_io := 0 }
        { traffic_rx := 50, traffic_tx := 0, crc_errors := 0,
          sum_rx := 50, sum_tx := 0 }
        false 1).traffic_rx ≠ 50 - 0 := by
  constructor <;>
    norm_num [update_current_data, rawDelta, pyInt, sample_factor, min_def, max_def]

/-- C3 (amended): the raw delta is `current - previous` only when the previous
counter is nonzero, and 0 otherwise; the raw rate is the delta times the
sample factor truncated to an integer, which equals `trunc (delta / elapsed)`
for nonzero elapsed time and the delta itself when elapsed time is 0 (the
divide-by-zero guard substitutes factor 1); the reported per-port values are
these quantities passed through the low-pass and high-pass clamps. -/
theorem delta_rate_formulas (prev : PortPrev) (cur : PortCur) (connected : Bool)
    (t : ℚ) :
    (update_current_data prev cur connected t).traffic_rx
      = min ((max (rawDelta prev.traffic_rx cur.traffic_rx) 0 : ℤ) : ℚ)
          (1000000000 / sample_factor t) ∧
    (update_current_data prev cur connected t).speed_rx
      = min ((max (pyInt ((rawDelta prev.traffic_rx cur.traffic_rx : ℚ) *
            sample_factor t)) 0 : ℤ) : ℚ) 1000000000 ∧
    rawDelta prev.traffic_rx cur.traffic_rx
      = (if prev.traffic_rx = 0 then 0 else cur.traffic_rx - prev.traffic_rx) ∧
    pyInt ((rawDelta prev.traffic_rx cur.traffic_rx : ℚ) * sample_factor t)
      = (if t = 0 then rawDelta prev.traffic_rx cur.traffic_rx
         else pyInt ((rawDelta prev.traffic_rx cur.traffic_rx : ℚ) / t)) := by
  refine ⟨rfl, rfl, rfl, ?_⟩
  by_cases ht : t = 0
  · simp [sample_factor, ht, pyInt_intCast]
  · simp [sample_factor, ht, div_eq_mul_inv]

/-- C2: on a connected port, a current cumulative `sum_rx` equal to 0 is kept
as-is (the code tests `< 0`), while a strictly negative value is replaced by
the previous cumulative value.  The claim (and the comment above the code,
"Access old data if value is 0") requires the substitution already at 0. -/
theorem fallback_zero_on_up_port_kept :
    (update_current_data
        { traffic_rx := 100, traffic_tx := 100, crc_errors := 0,
          sum_rx := 100, sum_tx := 100, speed_io := 7 }
        { traffic_rx := 150, traffic_tx := 150, crc_errors := 0,
          sum_rx := 0, sum_tx := 150 }
        true 5).sum_rx = 0 ∧
    (update_current_data
        { traffic_rx := 100, traffic_tx := 100, crc_errors := 0,
          sum_rx := 100, sum_tx := 100, speed_io := 7 }
        { traffic_rx := 150, traffic_tx := 150, crc_errors := 0,
          sum_rx := -3, sum_tx := 150 }
        true 5).sum_rx = 100 := by
  constructor <;>
    norm_num [update_current_data, rawDelta, pyInt, sample_factor, min_def, max_def]

/-- C6 (counterexample): with elapsed time 0 (first poll or offline replay), a
delta of 2e10 is clamped to 1e9, not to `1e9 × elapsed = 0`: the clamp ceiling
is `1e9 / sample_factor`, and the divide-by-zero guard makes the factor 1 when
elapsed time is 0. -/
theorem highpass_zero_elapsed_counterexample :
    ¬ ((update_current_data
        { traffic_rx := 100, traffic_tx := 0, crc_errors := 0,
          sum_rx := 0, sum_tx := 0, speed_io := 0 }
        { traffic_rx := 20000000100, traffic_tx := 0, crc_errors := 0,
          sum_rx := 0, sum_tx := 0 }
        false 0).traffic_rx ≤ 1000000000 * (0 : ℚ)) := by
  norm_num [update_current_data, rawDelta, pyInt, sample_factor, min_def, max_def]

/-- C6 (amended): each per-port traffic delta (rx, tx, crc) is clamped to at
most `1e9 / sample_factor`, which equals `1e9 × elapsed` for nonzero elapsed
time and `1e9` when elapsed time is 0; the rx and tx rates are clamped to at
most `1e9`; in particular a delta of 2e10 bytes over a 1-second interval is
reported as 1e9. -/
theorem highpass_clamp_bounds (prev : PortPrev) (cur : PortCur) (connected : Bool)
    (t : ℚ) :
    (update_current_data prev cur connected t).traffic_rx
        ≤ 1000000000 / sample_factor t ∧
    (update_current_data prev cur connected t).traffic_tx
        ≤ 1000000000 / sample_factor t ∧
    (update_current_data prev cur connected t).crc_errors
        ≤ 1000000000 / sample_factor t ∧
    (update_current_data prev cur connected t).speed_rx ≤ 1000000000 ∧
    (update_current_data prev cur connected t).speed_tx ≤ 1000000000 ∧
    (1000000000 / sample_factor t
      = if t = 0 then 1000000000 else 1000000000 * t) ∧
    (update_current_data
        { traffic_rx := 100, traffic_tx := 0, crc_errors := 0,
          sum_rx := 0, sum_tx := 0, speed_io := 0 }
        { traffic_rx := 20000000100, traffic_tx := 0, crc_errors := 0,
          sum_rx := 0, sum_tx := 0 }
        false 1).traffic_rx = 1000000000 := by
  refine ⟨min_le_right _ _, min_le_right _ _, min_le_right _ _,
    min_le_right _ _, min_le_right _ _, ?_, ?_⟩
  · by_cases ht : t = 0
    · simp [sample_factor, ht]
    · field_simp [sample_factor, ht]
  · norm_num [update_current_data, rawDelta, pyInt, sample_factor, min_def, max_def]

/-! ### Model registry and autodetection

Embedding of the model catalog (`py_netgear_plus/models.py`) and of
`NetgearSwitchConnector.autodetect_model` (`py_netgear_plus/__init__.py`,
lines 115-189).  A probed page is abstracted by the results of the four parser
functions that the registered checks can dispatch to by name via `getattr`. -/

/-- The result of one autodetection check function:
`check_login_form_rand` returns a boolean, `parse_login_title_tag`,
`parse_login_switchinfo_tag` and `parse_first_script_tag` return an optional
string. -/
inductive CheckResult where
  | bool (b : Bool)
  | str (s : Option String)
deriving DecidableEq, Repr

/-- A probed login page, abstracted by the results the four check functions
produce on it. -/
structure Page where
  login_form_rand : Bool
  login_title_tag : Option String
  login_switchinfo_tag : Option String
  first_script_tag : Option String
deriving DecidableEq, Repr

/-- One `(check-function-name, accepted-result-list)` entry of a model's
`CHECKS_AND_RESULTS`. -/
structure CheckSpec where
  name : String
  expected : List CheckResult
deriving DecidableEq, Repr

/-- The model metadata used by the claims: `MODEL_NAME`, `PORTS`, `POE_PORTS`
and `CHECKS_AND_RESULTS`. -/
structure SwitchModel where
  model_name : String
  ports : ℕ
  poePorts : List ℕ
  checks : List CheckSpec
deriving DecidableEq, Repr

/-- `getattr(self._page_parser, func_name)(response)` — dispatch of a check
function by name; names that do not resolve to a parser method yield `none`. -/
def check_result (page : Page) : String → Option CheckResult
  | "check_login_form_rand" => some (.bool page.login_form_rand)
  | "parse_login_title_tag" => some (.str page.login_title_tag)
  | "parse_login_switchinfo_tag" => some (.str page.login_switchinfo_tag)
  | "parse_first_script_tag" => some (.str page.first_script_tag)
  | _ => none

/-- `check_successful = func_result in expected_results` (line 140). -/
def check_passes (page : Page) (c : CheckSpec) : Bool :=
  match check_result page c.name with
  | some r => c.expected.contains r
  | none => false

/-- The matching rule of lines 137-152: a model is appended to
`matched_models` during the check loop when a check literally named
`check_login_switchinfo_tag` passes, and after the loop when all its checks
passed (without duplicating an already appended model). -/
def model_matches (page : Page) (m : SwitchModel) : Bool :=
  (m.checks.any fun c => c.name == "check_login_switchinfo_tag" && check_passes page c)
    || m.checks.all (check_passes page)

/-- All models matching a probed page, in registry order. -/
def matched_models (registry : List SwitchModel) (page : Page) : List SwitchModel :=
  registry.filter (model_matches page)

def GS105E : SwitchModel :=
  { model_name := "GS105E", ports := 5, poePorts := [],
    checks := [⟨"check_login_form_rand", [.bool true]⟩,
               ⟨"parse_login_title_tag", [.str (some "GS105E")]⟩] }

def GS105Ev2 : SwitchModel :=
  { model_name := "GS105Ev2", ports := 5, poePorts := [],
    checks := [⟨"check_login_form_rand", [.bool true]⟩,
               ⟨"parse_login_title_tag", [.str (some "GS105Ev2")]⟩] }

def GS105PE : SwitchModel :=
  { model_name := "GS105PE", ports := 5, poePorts := [],
    checks := [⟨"check_login_form_rand", [.bool true]⟩,
               ⟨"parse_login_title_tag", [.str (some "GS105PE")]⟩] }

def GS108E : SwitchModel :=
  { model_name := "GS108E", ports := 8, poePorts := [],
    checks := [⟨"check_login_form_rand", [.bool true]⟩,
               ⟨"parse_login_title_tag", [.str (some "GS108E")]⟩,
               ⟨"parse_login_switchinfo_tag",
                [.str (some "GS308E - 8-Port Gigabit Ethernet Smart Managed Plus Switch")]⟩] }

def GS108Ev3 : SwitchModel :=
  { model_name := "GS108Ev3", ports := 8, poePorts := [],
    checks := [⟨"check_login_form_rand", [.bool true]⟩,
               ⟨"parse_login_title_tag", [.str (some "GS108Ev3")]⟩,
               ⟨"parse_login_switchinfo_tag",
                [.str (some "GS108Ev3 - 8-Port Gigabit ProSAFE Plus Switch"),
                 .str (some "GS108Ev3 - 8-Port Gigabit Ethernet Smart Managed Plus Switch")]⟩] }

def GS108Ev4 : SwitchModel :=
  { model_name := "GS108Ev4", ports := 8, poePorts := [],
    checks := [⟨"check_login_form_rand", [.bool true]⟩,
               ⟨"parse_login_title_tag", [.str (some "GS108Ev4")]⟩] }

def GS108PEv3 : SwitchModel :=
  { model_name := "GS108PEv3", ports := 8, poePorts := [],
    checks := [⟨"check_login_form_rand", [.bool true]⟩,
               ⟨"parse_login_title_tag", [.str (some "GS108PEv3")]⟩,
               ⟨"parse_login_switchinfo_tag",
                [.str (some "GS108PEv3 - 8-Port Gigabit ProSAFE Plus Switch"),
                 .str (some "GS108PEv3 - 8-Port Gigabit Ethernet Smart Managed Plus Switch")]⟩] }

def GS305E : SwitchModel :=
  { model_name := "GS305E", ports := 5, poePorts := [],
    checks := [⟨"check_login_form_rand", [.bool true]⟩,
               ⟨"parse_login_title_tag", [.str (some "GS305E")]⟩] }

def GS308E : SwitchModel :=
  { model_name := "GS308E", ports := 8, poePorts := [],
    checks := [⟨"check_login_form_rand", [.bool true]⟩,
               ⟨"parse_login_title_tag", [.str (some "GS308E")]⟩,
               ⟨"parse_login_switchinfo_tag",
                [.str (some "GS308E - 8-Port Gigabit ProSAFE Plus Switch"),
                 .str (some "GS308E - 8-Port Gigabit Ethernet Smart Managed Plus Switch")]⟩] }

def GS308Ev4 : SwitchModel :=
  { model_name := "GS308Ev4", ports := 8, poePorts := [],
    checks := [⟨"check_login_form_rand", [.bool true]⟩,
               ⟨"parse_login_title_tag", [.str (some "GS308Ev4")]⟩] }

def GS110EMX : SwitchModel :=
  { model_name := "GS110EMX", ports := 10, poePorts := [],
    checks := [⟨"check_login_form_rand", [.bool true]⟩,
               ⟨"parse_login_title_tag", [.str (some "GS110EMX")]⟩] }

def XS512EM : SwitchModel :=
  { model_name := "XS512EM", ports := 12, poePorts := [],
    checks := [⟨"check_login_form_rand", [.bool true]⟩,
               ⟨"parse_login_title_tag", [.str (some "XS512EM")]⟩] }

def GS305EP : SwitchModel :=
  { model_name := "GS305EP", ports := 5, poePorts := [1, 2, 3, 4],
    checks := [⟨"check_login_form_rand", [.bool true]⟩,
               ⟨"parse_login_title_tag", [.str (some "GS305EP")]⟩] }

def GS305EPP : SwitchModel :=
  { model_name := "GS305EPP", ports := 5, poePorts := [1, 2, 3, 4],
    checks := [⟨"check_login_form_rand", [.bool true]⟩,
               ⟨"parse_login_title_tag", [.str (some "GS305EPP")]⟩] }

def GS308EPP : SwitchModel :=
  { model_name := "GS308EPP", ports := 8, poePorts := [1, 2, 3, 4, 5, 6, 7, 8],
    checks := [⟨"check_login_form_rand", [.bool true]⟩,
               ⟨"parse_login_title_tag", [.str (some "GS308EPP")]⟩] }

def GS308EP : SwitchModel :=
  { model_name := "GS308EP", ports := 8, poePorts := [1, 2, 3, 4, 5, 6, 7, 8],
    checks := [⟨"check_login_form_rand", [.bool true]⟩,
               ⟨"parse_login_title_tag", [.str (some "GS308EP")]⟩] }

def GS316EPP : SwitchModel :=
  { model_name := "GS316EPP", ports := 16,
    poePorts := [1, 2, 3, 4, 5, 6, 7, 8, 9, 10, 11, 12, 13, 14, 15],
    checks := [⟨"check_login_form_rand", [.bool true]⟩,
               ⟨"parse_login_title_tag", [.str (some "GS316EPP")]⟩] }

def GS316EP : SwitchModel :=
  { model_name := "GS316EP", ports := 16,
    poePorts := [1, 2, 3, 4, 5, 6, 7, 8, 9, 10, 11, 12, 13, 14, 15],
    checks := [⟨"check_login_form_rand", [.bool true]⟩,
               ⟨"parse_login_title_tag", [.str (some "GS316EP")]⟩] }

def JGS516PE : SwitchModel :=
  { model_name := "JGS516PE", ports := 16, poePorts := [],
    checks := [⟨"check_login_form_rand", [.bool false]⟩,
               ⟨"parse_first_script_tag", [.str (some "JGS516PE")]⟩] }

def JGS524Ev2 : SwitchModel :=
  { model_name := "JGS524Ev2", ports := 24, poePorts := [],
    checks := [⟨"check_login_form_rand", [.bool false]⟩,
               ⟨"parse_first_script_tag", [.str (some "JGS524Ev2")]⟩] }

def GS116Ev2 : SwitchModel :=
  { model_name := "GS116Ev2", ports := 16, poePorts := [],
    checks := [⟨"check_login_form_rand", [.bool false]⟩,
               ⟨"parse_first_script_tag", [.str (some "GS116Ev2")]⟩] }

def MS108EUP : SwitchModel :=
  { model_name := "MS108EUP", ports := 8, poePorts := [1, 2, 3, 4, 5, 6, 7, 8],
    checks := [⟨"check_login_form_rand", [.bool true]⟩,
               ⟨"parse_login_title_tag", [.str (some "MS108EUP")]⟩] }

/-- The registry `MODELS = get_all_child_classes_list(AutodetectedSwitchModel,
"MODEL_NAME")`: all concrete model classes in the order the depth-first
subclass walk of `models.py` yields them (children before their parent,
classes in definition order). -/
def MODELS : List SwitchModel :=
  [GS105E, GS105PE, GS105Ev2, GS108E, GS108Ev3, GS308Ev4, GS108Ev4, GS108PEv3,
   GS305E, GS308E, GS110EMX, XS512EM, GS305EP, GS305EPP, GS308EPP, GS308EP,
   GS316EPP, GS316EP, JGS516PE, JGS524Ev2, GS116Ev2, MS108EUP]

/-- The per-port previous-counter arrays of `self._previous_data`. -/
structure PreviousData where
  traffic_tx : List ℤ
  traffic_rx : List ℤ
  crc_errors : List ℤ
  speed_io : List ℤ
  sum_rx : List ℤ
  sum_tx : List ℤ
deriving DecidableEq, Repr

/-- `_set_instance_attributes_by_model` (lines 176-189): the previous-counter
state is reset to zeros sized to the selected model's port count. -/
def reset_previous_data (m : SwitchModel) : PreviousData :=
  { traffic_tx := List.replicate m.ports 0
    traffic_rx := List.replicate m.ports 0
    crc_errors := List.replicate m.ports 0
    speed_io := List.replicate m.ports 0
    sum_rx := List.replicate m.ports 0
    sum_tx := List.replicate m.ports 0 }

/-- Outcome of `autodetect_model`: a selected model together with the reset
previous-counter state, or one of the two exceptions. -/
inductive DetectOutcome where
  | detected (m : SwitchModel) (prev : PreviousData)
  | multiple
  | notDetected
deriving DecidableEq, Repr

/-- `autodetect_model` (lines 115-174), parameterized by the model registry.
Each probe URL yields either no usable response (`none`: connection error or a
non-200 status) or a page; on the first page with exactly one matching model
that model is selected, more than one match raises
`MultipleModelsDetectedError`, zero matches moves on to the next probe URL,
and exhausting all probes raises `SwitchModelNotDetectedError`. -/
def autodetect_model (registry : List SwitchModel) :
    List (Option Page) → DetectOutcome
  | [] => .notDetected
  | none :: rest => autodetect_model registry rest
  | some page :: rest =>
      match matched_models registry page with
      | [m] => .detected m (reset_previous_data m)
      | [] => autodetect_model registry rest
      | _ => .multiple

/-! ### PoE control operations

Embedding of `switch_poe_port` / `turn_on_poe_port` / `turn_off_poe_port`
(lines 801-841) and `power_cycle_poe_port` (lines 843-870).  The network is
abstracted by one boolean per templated request: whether the response had OK
status and the literal body `SUCCESS`. -/

/-- Outcome of a PoE control call: a normal return value, or one of the two
validation exceptions. -/
inductive PoEControlResult where
  | ok (success : Bool)
  | invalidState
  | invalidPort
deriving DecidableEq, Repr

def SWITCH_STATES : List String := ["on", "off"]

/-- `switch_poe_port` (lines 801-833): validate the state, then — only when
the port is contained in the model's PoE-port list — try each template; an OK
`SUCCESS` response returns `True`, exhausting the templates returns `False`;
a port outside the list raises `InvalidPoEPortError`. -/
def switch_poe_port (m : SwitchModel) (responses : List Bool) (poe_port : ℕ)
    (state : String) : PoEControlResult :=
  if state ∉ SWITCH_STATES then .invalidState
  else if poe_port ∈ m.poePorts then .ok (responses.any id)
  else .invalidPort

def turn_on_poe_port (m : SwitchModel) (responses : List Bool)
    (poe_port : ℕ) : PoEControlResult :=
  switch_poe_port m responses poe_port "on"

def turn_off_poe_port (m : SwitchModel) (responses : List Bool)
    (poe_port : ℕ) : PoEControlResult :=
  switch_poe_port m responses poe_port "off"

/-- `power_cycle_poe_port` (lines 843-870): the template loop runs only when
the port is contained in the model's PoE-port list; for any other port the
function falls through to `return False` — there is no `else` branch raising
`InvalidPoEPortError`. -/
def power_cycle_poe_port (m : SwitchModel) (responses : List Bool)
    (poe_port : ℕ) : PoEControlResult :=
  if poe_port ∈ m.poePorts then .ok (responses.any id) else .ok false

/-- C1 (counterexample): `power_cycle_poe_port` on a port outside the model's
PoE-port list (port 5 on a GS305EP, whose PoE ports are 1-4) returns `False`
instead of raising `InvalidPoEPortError`. -/
theorem power_cycle_invalid_port_no_raise :
    power_cycle_poe_port GS305EP [] 5 = .ok false ∧
    power_cycle_poe_port GS305EP [] 5 ≠ .invalidPort := by
  decide

/-- C1 (amended): for every registered model and every port outside its
PoE-port list, `turn_on_poe_port` and `turn_off_poe_port` raise
`InvalidPoEPortError`, while `power_cycle_poe_port` returns `False` without
issuing any request. -/
theorem poe_control_invalid_port (m : SwitchModel) (responses : List Bool)
    (poe_port : ℕ) (_hm : m ∈ MODELS) (hp : poe_port ∉ m.poePorts) :
    turn_on_poe_port m responses poe_port = .invalidPort ∧
    turn_off_poe_port m responses poe_port = .invalidPort ∧
    power_cycle_poe_port m responses poe_port = .ok false := by
  refine ⟨?_, ?_, ?_⟩ <;>
    simp [turn_on_poe_port, turn_off_poe_port, switch_poe_port,
      power_cycle_poe_port, SWITCH_STATES, hp]

theorem poe_control_invalid_port_witness :
    turn_on_poe_port GS305EP [] 5 = .invalidPort ∧
    turn_off_poe_port GS305EP [] 5 = .invalidPort ∧
    power_cycle_poe_port GS305EP [] 5 = .ok false :=
  poe_control_invalid_port GS305EP [] 5 (by decide) (by decide)

/-- A probed page on which only the switch-info tag of a GS108Ev3 is
recognizable: no `rand` input, no usable title, but the `switchInfo` div of a
GS108Ev3 login page. -/
def page_switchinfo_only : Page :=
  { login_form_rand := false
    login_title_tag := none
    login_switchinfo_tag := some "GS108Ev3 - 8-Port Gigabit ProSAFE Plus Switch"
    first_script_tag := none }

/-- C4: the switch-info tag override is dead code.  The override branch of
`autodetect_model` compares the check name against the literal
`"check_login_switchinfo_tag"`, but every model registers its switch-info tag
check under the name `"parse_login_switchinfo_tag"`, so no registered model is
ever matched through the override: on a page where the GS108Ev3 switch-info
tag check alone passes, GS108Ev3 is not matched. -/
theorem switchinfo_override_never_matches :
    (MODELS.all fun m =>
      m.checks.all fun c => !(c.name == "check_login_switchinfo_tag")) = true ∧
    (GS108Ev3.checks.any fun c =>
      c.name == "parse_login_switchinfo_tag" && check_passes page_switchinfo_only c)
      = true ∧
    model_matches page_switchinfo_only GS108Ev3 = false ∧
    matched_models MODELS page_switchinfo_only = [] := by
  refine ⟨by decide, by decide, by decide, by decide⟩

/-- C5: the three outcomes of `autodetect_model`.  An empty or unresponsive
probe list yields `SwitchModelNotDetectedError`; a probed page with exactly
one matching model selects that model and resets the per-port
previous-counter state to zeros sized to its port count; a page with zero
matches moves on to the remaining probes; a page with two or more matches
raises `MultipleModelsDetectedError`. -/
theorem autodetect_model_outcomes (registry : List SwitchModel) (page : Page)
    (rest : List (Option Page)) (m : SwitchModel) :
    autodetect_model registry [] = .notDetected ∧
    autodetect_model registry (none :: rest) = autodetect_model registry rest ∧
    (matched_models registry page = [m] →
      autodetect_model registry (some page :: rest)
        = .detected m (reset_previous_data m)) ∧
    (matched_models registry page = [] →
      autodetect_model registry (some page :: rest)
        = autodetect_model registry rest) ∧
    (2 ≤ (matched_models registry page).length →
      autodetect_model registry (some page :: rest) = .multiple) ∧
    (reset_previous_data m).traffic_rx = List.replicate m.ports 0 ∧
    (reset_previous_data m).traffic_tx = List.replicate m.ports 0 ∧
    (reset_previous_data m).crc_errors = List.replicate m.ports 0 ∧
    (reset_previous_data m).speed_io = List.replicate m.ports 0 ∧
    (reset_previous_data m).sum_rx = List.replicate m.ports 0 ∧
    (reset_previous_data m).sum_tx = List.replicate m.ports 0 := by
  refine ⟨rfl, rfl, ?_, ?_, ?_, rfl, rfl, rfl, rfl, rfl, rfl⟩
  · intro h
    simp only [autodetect_model, h]
  · intro h
    simp only [autodetect_model, h]
  · intro h
    rcases hl : matched_models registry page with _ | ⟨a, _ | ⟨b, t⟩⟩
    · rw [hl] at h; simp at h
    · rw [hl] at h; simp at h
    · simp only [autodetect_model, hl]

/-- A login page of a GS305EP: a `rand` input and the title `GS305EP`. -/
def page_GS305EP : Page :=
  { login_form_rand := true
    login_title_tag := some "GS305EP"
    login_switchinfo_tag := none
    first_script_tag := none }

/-- A login page of a GS105E: a `rand` input and the title `GS105E`. -/
def page_GS105E : Page :=
  { login_form_rand := true
    login_title_tag := some "GS105E"
    login_switchinfo_tag := none
    first_script_tag := none }

theorem autodetect_model_outcomes_witness :
    autodetect_model MODELS [some page_GS305EP]
      = .detected GS305EP (reset_previous_data GS305EP) ∧
    autodetect_model [GS105E, GS105E] [some page_GS105E] = .multiple :=
  ⟨(autodetect_model_outcomes MODELS page_GS305EP [] GS305EP).2.2.1 (by decide),
   (autodetect_model_outcomes [GS105E, GS105E] page_GS105E [] GS105E).2.2.2.2.1
     (by decide)⟩

/-! ### Login and the authentication-failure budget

Embedding of `get_login_cookie` (lines 253-300) and
`_handle_soft_authentication_failure` (lines 206-251).  One login attempt is
abstracted by what the login response yields: a Gambit tag, an allowed cookie,
or neither (a soft authentication failure, further qualified by whether the
response has content and whether it carries a maximum-sessions message). -/

def MAX_AUTHENTICATION_FAILURES : ℕ := 3

/-- What one login attempt's response yields. -/
inductive LoginAttemptOutcome where
  | gambit
  | cookie
  | softFail (has_content max_sessions : Bool)
deriving DecidableEq, Repr

/-- How a `get_login_cookie` call ends. -/
inductive LoginResult where
  | success
  | failed
  | loginError
  | maxSessions
deriving DecidableEq, Repr

/-- One `get_login_cookie` call: result and new authentication-failure
counter.  A Gambit tag or an allowed cookie resets the counter to 0 and
returns `True`; otherwise `_handle_soft_authentication_failure` runs: a
response without content raises `LoginFailedError`, a maximum-sessions
message raises `MaxSessionsError` (both before the counter is touched), any
other soft failure increments the counter and raises `LoginFailedError` once
it reaches `MAX_AUTHENTICATION_FAILURES`. -/
def get_login_cookie (count : ℕ) : LoginAttemptOutcome → LoginResult × ℕ
  | .gambit => (.success, 0)
  | .cookie => (.success, 0)
  | .softFail has_content max_sessions =>
      if ¬ has_content then (.loginError, count)
      else if max_sessions then (.maxSessions, count)
      else
        let count := count + 1
        if MAX_AUTHENTICATION_FAILURES ≤ count then (.loginError, count)
        else (.failed, count)

/-- A caller that keeps calling `get_login_cookie` while it returns `False`,
threading the authentication-failure counter; the second component counts the
login attempts actually made. -/
def login_retry_loop : ℕ → List LoginAttemptOutcome → LoginResult × ℕ
  | _, [] => (.failed, 0)
  | count, o :: rest =>
      match get_login_cookie count o with
      | (.failed, c) =>
          let r := login_retry_loop c rest
          (r.1, r.2 + 1)
      | (res, _) => (res, 1)

/-- C7: the authentication-failure counter increments on each counted soft
failure, resets to 0 whenever a login yields a usable credential (Gambit tag
or cookie), and the third consecutive soft failure raises `LoginFailedError`,
so no 4th login attempt is made regardless of how many more attempts would be
available. -/
theorem auth_failure_budget :
    (∀ count, get_login_cookie count .gambit = (.success, 0)) ∧
    (∀ count, get_login_cookie count .cookie = (.success, 0)) ∧
    (∀ count, get_login_cookie count (.softFail true false)
      = (if MAX_AUTHENTICATION_FAILURES ≤ count + 1 then (.loginError, count + 1)
         else (.failed, count + 1))) ∧
    (∀ rest, login_retry_loop 0
        (.softFail true false :: .softFail true false :: .softFail true false :: rest)
      = (.loginError, 3)) := by
  refine ⟨fun _ => rfl, fun _ => rfl, fun count => rfl, fun rest => rfl⟩

/-! ### Parser port-count behavior

Embedding of `convert_to_int` (`parsers.py`, lines 76-94), the base
table-scraping counter parser `PageParser.parse_port_statistics_v1`
(lines 290-311), the count-checked script parser
`JGSxxxSeries.parse_port_status` (lines 1193-1221), and the port-count check
of `NetgearSwitchConnector._get_port_status` (lines 712-755).  A scraped table
cell is abstracted by the integer its text parses to, or `none` when `int()`
raises (which `convert_to_int` turns into 0). -/

/-- `convert_to_int`: parse each element (0 on failure), then zero-pad up to
`output_elems` when the list is shorter; a longer list is returned as-is. -/
def convert_to_int (lst : List (Option ℤ)) (output_elems : ℕ) : List ℤ :=
  let new_lst := lst.map fun x => x.getD 0
  if new_lst.length < output_elems then
    new_lst ++ List.replicate (output_elems - new_lst.length) 0
  else new_lst

/-- The port-indexed arrays returned by a counter parser. -/
structure PortStatisticsData where
  traffic_rx : List ℤ
  traffic_tx : List ℤ
  sum_rx : List ℤ
  sum_tx : List ℤ
  crc_errors : List ℤ
  speed_io : List ℤ
deriving DecidableEq, Repr

/-- `PageParser.parse_port_statistics_v1`: scrape the rx/tx/crc table columns
and convert each through `convert_to_int` with `output_elems = ports`. -/
def parse_port_statistics_v1 (rx_elems tx_elems crc_elems : List (Option ℤ))
    (ports : ℕ) : PortStatisticsData :=
  let rx := convert_to_int rx_elems ports
  let tx := convert_to_int tx_elems ports
  let crc := convert_to_int crc_elems ports
  { traffic_rx := rx, traffic_tx := tx, sum_rx := rx, sum_tx := tx,
    crc_errors := crc, speed_io := List.replicate ports 0 }

/-- One parsed per-port status entry (connectivity state, negotiated mode,
connection speed). -/
structure PortStatusEntry where
  status : String
  modus_speed : String
  connection_speed : String
deriving DecidableEq, Repr

/-- `JGSxxxSeries.parse_port_status`: the script-embedded `portConfigEntry`
list must contain exactly `ports` entries, otherwise
`NetgearPlusPageParserError` is raised (the per-entry field extraction is kept
abstract). -/
def jgs_parse_port_status (entries : List PortStatusEntry) (ports : ℕ) :
    Except String (List PortStatusEntry) :=
  if entries.length ≠ ports then .error "Port count mismatch" else .ok entries

/-- The count check of `NetgearSwitchConnector._get_port_status`: inside the
loop over ports 1..ports, a parsed status list whose length differs from the
port count raises `InvalidPortStatusError` (with zero ports the loop body
never runs). -/
def get_port_status_check (port_status : List PortStatusEntry) (ports : ℕ) :
    Except String Unit :=
  if ports ≠ 0 ∧ port_status.length ≠ ports then .error "InvalidPortStatusError"
  else .ok ()

/-- C9 (counterexample): the base table-scraping counter parser, given one
table row more than the model's port count, silently returns arrays with
`ports + 1` entries — it neither raises nor truncates, and this is not the
sanctioned trailing zero-pad. -/
theorem base_counter_extra_rows_counterexample :
    (parse_port_statistics_v1 [some 1, some 2, some 3] [some 4] [] 2).traffic_rx
      = [1, 2, 3] ∧
    (parse_port_statistics_v1 [some 1, some 2, some 3] [some 4] [] 2).traffic_rx.length
      ≠ 2 := by
  decide

/-- C9 (amended): `convert_to_int` zero-pads a too-short row list up to the
port count (yielding exactly `ports` entries) but passes a too-long list
through unchanged; the script parser `JGSxxxSeries.parse_port_status` raises
on any count mismatch, and the connector's `_get_port_status` raises
`InvalidPortStatusError` whenever the parsed status count differs from a
nonzero port count. -/
theorem port_count_invariant (lst : List (Option ℤ))
    (entries : List PortStatusEntry) (ports : ℕ) :
    (lst.length ≤ ports →
      convert_to_int lst ports
        = lst.map (fun x => x.getD 0) ++ List.replicate (ports - lst.length) 0 ∧
      (convert_to_int lst ports).length = ports) ∧
    (ports < lst.length → convert_to_int lst ports = lst.map fun x => x.getD 0) ∧
    (jgs_parse_port_status entries ports = .ok entries ↔ entries.length = ports) ∧
    (∀ l, jgs_parse_port_status entries ports = .ok l → l.length = ports) ∧
    (get_port_status_check entries ports = .ok ()
      ↔ (ports = 0 ∨ entries.length = ports)) := by
  constructor
  · intro h
    rcases lt_or_eq_of_le h with h' | h'
    · constructor
      · simp [convert_to_int, h']
      · simp [convert_to_int, h']
        omega
    · constructor
      · simp [convert_to_int, h']
      · simp [convert_to_int, h']
  refine ⟨?_, ?_, ?_, ?_⟩
  · intro h
    simp [convert_to_int, Nat.not_lt_of_lt h]
  · unfold jgs_parse_port_status
    by_cases h : entries.length = ports <;> simp [h]
  · intro l
    unfold jgs_parse_port_status
    by_cases h : entries.length = ports <;> simp [h]
    rintro rfl
    exact h
  · unfold get_port_status_check
    by_cases h0 : ports = 0
    · simp [h0]
    · by_cases h : entries.length = ports <;> simp [h0, h]

theorem port_count_invariant_witness :
    convert_to_int [some 7] 3 = [7, 0, 0] ∧
    (convert_to_int [some 7] 3).length = 3 ∧
    convert_to_int [some 1, some 2, some 3] 2 = [1, 2, 3] ∧
    (jgs_parse_port_status [] 2 = .ok [] ↔ False) ∧
    (get_port_status_check [] 2 = .ok () ↔ (2 = 0 ∨ ([] : List PortStatusEntry).length = 2)) := by
  have h1 := (port_count_invariant [some 7] [] 3).1 (by decide)
  have h2 := (port_count_invariant [some 1, some 2, some 3] [] 2).2.1 (by decide)
  have h3 := (port_count_invariant [some 7] [] 2).2.2.1
  have h4 := (port_count_invariant [some 7] [] 2).2.2.2.2
  exact ⟨h1.1, h1.2, h2, by simpa using h3, h4⟩

/-! ### Credential hashing

Embedding of `hex_hmac_md5` (`netgear_crypt.py`, lines 39-53).  The function
builds a fixed-size buffer from the password and feeds it to HMAC-MD5 with a
fixed key; the HMAC-MD5 hex digest itself is a pure function of key and
message and is kept abstract as a function parameter. -/

/-- The padding character `space = "\0"`. -/
def space : Char := Char.ofNat 0

/-- The buffer construction of `hex_hmac_md5`:
`repeat_count = 2048 // (len(password) + 1)`,
`remaining_space = 2048 - repeat_count * (len(password) + 1)`,
`passwrd = (password + space) * repeat_count + space * remaining_space`. -/
def padded_password (password : List Char) : List Char :=
  let repeat_count := 2048 / (password.length + 1)
  let remaining_space := 2048 - repeat_count * (password.length + 1)
  (List.replicate repeat_count (password ++ [space])).flatten
    ++ List.replicate remaining_space space

/-- `hex_hmac_md5(password, md5_key)`: the hex digest of HMAC-MD5 applied to
the fixed key and the padded buffer (`digest` abstracts
`hmac.new(key, msg, md5).hexdigest()`). -/
def hex_hmac_md5 (digest : String → List Char → String) (password : List Char)
    (md5_key : String) : String :=
  digest md5_key (padded_password password)

theorem padded_password_length (password : List Char) :
    (padded_password password).length = 2048 := by
  have hle : 2048 / (password.length + 1) * (password.length + 1) ≤ 2048 :=
    Nat.div_mul_le_self 2048 (password.length + 1)
  simp only [padded_password, List.length_append, List.length_flatten,
    List.map_replicate, List.length_replicate, List.sum_replicate, smul_eq_mul,
    List.length_cons, List.length_nil, zero_add]
  omega

/-- C10: the buffer fed to HMAC-MD5 is always exactly 2048 characters; for a
password of 2048 or more characters the repeat count is 0, so the buffer is
2048 NUL characters and contains no password characters — hence any two such
passwords produce the same digest. -/
theorem hmac_buffer_password_independent :
    (∀ password : List Char, (padded_password password).length = 2048) ∧
    (∀ password : List Char, 2048 ≤ password.length →
      padded_password password = List.replicate 2048 space) ∧
    (∀ (digest : String → List Char → String) (md5_key : String)
        (p1 p2 : List Char), 2048 ≤ p1.length → 2048 ≤ p2.length →
      hex_hmac_md5 digest p1 md5_key = hex_hmac_md5 digest p2 md5_key) := by
  have hdeg : ∀ password : List Char, 2048 ≤ password.length →
      padded_password password = List.replicate 2048 space := by
    intro password h
    have h0 : 2048 / (password.length + 1) = 0 :=
      Nat.div_eq_of_lt (by omega)
    simp only [padded_password, h0, List.replicate_zero, List.flatten_nil,
      List.nil_append, Nat.zero_mul, Nat.sub_zero]
  refine ⟨padded_password_length, hdeg, ?_⟩
  intro digest md5_key p1 p2 h1 h2
  simp only [hex_hmac_md5, hdeg p1 h1, hdeg p2 h2]

theorem hmac_buffer_password_independent_witness :
    (padded_password (List.replicate 2048 'a')).length = 2048 ∧
    padded_password (List.replicate 2049 'b') = List.replicate 2048 space ∧
    hex_hmac_md5 (fun _ m => String.mk m) (List.replicate 2048 'a')
        "YOU_CAN_NOT_PASS"
      = hex_hmac_md5 (fun _ m => String.mk m) (List.replicate 2049 'b')
        "YOU_CAN_NOT_PASS" :=
  ⟨hmac_buffer_password_independent.1 _,
   hmac_buffer_password_independent.2.1 _ (by rw [List.length_replicate]; omega),
   hmac_buffer_password_independent.2.2 _ _ _ _ (by rw [List.length_replicate])
     (by rw [List.length_replicate]; omega)⟩

end NetgearPlus
